import Mathlib

/-!
Verification of the LodgeMate hotel-management backend (core app).

Shallow embedding of the business rules in src/core: models.py, serializers.py,
views.py, api.py, permissions.py, urls.py.  Conventions:

* Python integers are embedded as `Int` (unbounded, exact).
* Decimal money fields (two decimal places) are embedded as `Int` cents, so a
  price of 5.00 is `500` and `quantity_sold * price` stays exact.
* Dates are embedded as `Int` day numbers; `today` is an explicit parameter.
* Raising `ValidationError` / `ValueError` is embedded as `Except.error msg`
  with the exact message string from the source.
* Persistence is explicit state passing: a request handler receives the stored
  row and returns the row as it stands in the store afterwards.
-/

/-- InventoryItem row (models.py lines 126-140): name, stock quantity
(PositiveIntegerField) and unit price (DecimalField, embedded as cents). -/
structure InventoryItem where
  name : String
  quantity : Int
  price : Int
  deriving Repr, DecidableEq

/-- Transaction row (models.py lines 143-147): quantity sold and total price
(cents).  The foreign key to the item is threaded separately as state. -/
structure Transaction where
  quantity_sold : Int
  total_price : Int
  deriving Repr, DecidableEq

/-- InventoryItem.clean (models.py lines 133-137): rejects negative quantity
and negative price. -/
def InventoryItem.clean (it : InventoryItem) : Except String Unit :=
  if it.quantity < 0 then Except.error "Quantity cannot be negative."
  else if it.price < 0 then Except.error "Price cannot be negative."
  else Except.ok ()

/-- Transaction.save override (models.py lines 149-155): checks stock against
the in-memory item, deducts the quantity, persists the item, recomputes
`total_price = quantity_sold * item.price`, then inserts the row.  Returns the
item state as persisted together with the saved transaction. -/
def Transaction.modelSave (item : InventoryItem) (t : Transaction) :
    Except String (InventoryItem × Transaction) :=
  if item.quantity < t.quantity_sold then
    Except.error "Not enough stock available for this transaction."
  else
    let item2 := { item with quantity := item.quantity - t.quantity_sold }
    Except.ok (item2, { t with total_price := t.quantity_sold * item2.price })

/-- TransactionSerializer.validate (serializers.py lines 89-95): fails when the
item has less stock than `quantity_sold`, reporting the available quantity. -/
def TransactionSerializer.validate (item : InventoryItem) (qs : Int) :
    Except String Unit :=
  if item.quantity < qs then
    Except.error ("Only " ++ toString item.quantity ++
      " items are available in stock.")
  else Except.ok ()

/-- TransactionSerializer.create (serializers.py lines 97-113): deducts the
quantity from the item and persists it, computes the total price, then calls
`Transaction.objects.create`, which runs the overridden `Transaction.save`.
The pair returned is (item state as persisted in the store, outcome); when
`Transaction.save` raises, the deduction done here has already been saved. -/
def TransactionSerializer.create (item : InventoryItem) (qs : Int) :
    InventoryItem × Except String Transaction :=
  let item1 := { item with quantity := item.quantity - qs }
  let total_price := qs * item1.price
  match Transaction.modelSave item1 { quantity_sold := qs, total_price := total_price } with
  | Except.error e => (item1, Except.error e)
  | Except.ok (item2, t) => (item2, Except.ok t)

/-- Transaction creation through the public endpoint (TransactionViewSet with
TransactionSerializer): `is_valid` runs `validate`; only on success does
`save` run `create`.  On validation failure nothing is written. -/
def createTransactionApi (item : InventoryItem) (qs : Int) :
    InventoryItem × Except String Transaction :=
  match TransactionSerializer.validate item qs with
  | Except.error e => (item, Except.error e)
  | Except.ok () => TransactionSerializer.create item qs

/-- C1: a Transaction creation with `quantity_sold` above the current stock
fails in `TransactionSerializer.validate` with the insufficient-stock error
reporting the available quantity, and the stored item is unchanged — no
partial deduction is persisted. -/
theorem C1_insufficient_stock_rejected (item : InventoryItem) (qs : Int)
    (h : item.quantity < qs) :
    createTransactionApi item qs =
      (item, Except.error ("Only " ++ toString item.quantity ++
        " items are available in stock.")) := by
  unfold createTransactionApi TransactionSerializer.validate
  simp [h]

/-- C1 witness: the item ⟨Soda, 2, 500⟩ with quantity_sold 3. -/
theorem C1_insufficient_stock_rejected_witness :
    (⟨"Soda", 2, 500⟩ : InventoryItem).quantity < 3 ∧
      createTransactionApi ⟨"Soda", 2, 500⟩ 3 =
        (⟨"Soda", 2, 500⟩, Except.error ("Only " ++
          toString (⟨"Soda", 2, 500⟩ : InventoryItem).quantity ++
          " items are available in stock.")) :=
  ⟨by decide, C1_insufficient_stock_rejected ⟨"Soda", 2, 500⟩ 3 (by decide)⟩

/-- C2: evaluation of the public Transaction-creation path on the spec's own
example, InventoryItem(quantity=10, price=5.00) with quantity_sold=3.  The
stock is deducted twice — once in `TransactionSerializer.create` and once more
in the overridden `Transaction.save` invoked by `Transaction.objects.create` —
so the stored quantity ends at 4, not the 7 the spec requires; the total price
is 15.00 as expected. -/
theorem C2_transaction_double_deduction :
    createTransactionApi ⟨"Soap", 10, 500⟩ 3 =
      (⟨"Soap", 4, 500⟩, Except.ok ⟨3, 1500⟩) ∧
    ((createTransactionApi ⟨"Soap", 10, 500⟩ 3).1.quantity = 7) = False := by
  constructor
  · rfl
  · decide

/-- Reservation row (models.py lines 86-100): stay dates (day numbers) and a
status CharField whose declared choices are pending, confirmed, checked_in,
checked_out (default pending). -/
structure Reservation where
  check_in_date : Int
  check_out_date : Int
  status : String
  deriving Repr, DecidableEq

/-- Position of a status along the lifecycle pending, confirmed, checked_in,
checked_out; strings outside the choices map to 0. -/
def statusRank (s : String) : Nat :=
  if s = "confirmed" then 1
  else if s = "checked_in" then 2
  else if s = "checked_out" then 3
  else 0

/-- ReservationViewSet.check_in (views.py lines 66-73): returns the stored
reservation, the HTTP status and the response message.  Any status other than
confirmed gets a 400 and no write; confirmed becomes checked_in. -/
def ReservationViewSet.check_in (r : Reservation) : Reservation × Nat × String :=
  if r.status ≠ "confirmed" then
    (r, 400, "Reservation must be confirmed before check-in")
  else
    ({ r with status := "checked_in" }, 200, "checked in")

/-- ReservationViewSet.check_out (views.py lines 75-82): any status other than
checked_in gets a 400 and no write; checked_in becomes checked_out. -/
def ReservationViewSet.check_out (r : Reservation) : Reservation × Nat × String :=
  if r.status ≠ "checked_in" then
    (r, 400, "Reservation must be checked in before check-out")
  else
    ({ r with status := "checked_out" }, 200, "checked out")

/-- ReservationSerializer.validate (serializers.py lines 122-132): rejects a
check-in date before today and a check-out date not strictly after the
check-in date.  On the creation and update paths this method is dead code:
serializer field construction fails first (see `ReservationSerializer.buildFields`). -/
def ReservationSerializer.validate (today ci co : Int) : Except String Unit :=
  if ci < today then Except.error "Check-in date cannot be in the past."
  else if co ≤ ci then Except.error "Check-out date must be after check-in date."
  else Except.ok ()

/-- Field names available on the Reservation model (models.py lines 86-100):
the implicit primary key plus the declared fields. -/
def reservationModelFieldNames : List String :=
  ["id", "guest", "room", "check_in_date", "check_out_date", "status"]

/-- Meta.fields declared on ReservationSerializer (serializers.py lines
115-120); guest_name and total_price are not Reservation model fields. -/
def reservationSerializerMetaFields : List String :=
  ["id", "guest_name", "room", "check_in_date", "check_out_date", "status",
    "total_price"]

/-- ModelSerializer field construction for ReservationSerializer: the first
declared name that matches no model field raises ImproperlyConfigured.  This
runs inside is_valid on every create and update request, before any field or
object validation. -/
def ReservationSerializer.buildFields : Except String (List String) :=
  match reservationSerializerMetaFields.find?
      (fun f => !(reservationModelFieldNames.contains f)) with
  | some f =>
      Except.error ("Field name " ++ f ++ " is not valid for model Reservation.")
  | none => Except.ok reservationSerializerMetaFields

/-- POST /api/reservations/ (ReservationViewSet create with
ReservationSerializer): is_valid first builds the serializer fields, which
fails on guest_name, so `validate` never runs and no row is ever written;
were construction to succeed, `validate` would check the dates and the row
would be created from the submitted fields. -/
def ReservationViewSet.createApi (today ci co : Int) (st : String) :
    Except String Reservation :=
  match ReservationSerializer.buildFields with
  | Except.error e => Except.error e
  | Except.ok _ =>
      match ReservationSerializer.validate today ci co with
      | Except.error e => Except.error e
      | Except.ok () =>
          Except.ok { check_in_date := ci, check_out_date := co, status := st }

/-- PUT/PATCH /api/reservations/id (ReservationViewSet update with
ReservationSerializer): same shape as creation, against a stored row `r`.
The pair returned is (row as stored afterwards, outcome); field construction
fails before anything is validated or written, so the stored row survives
every update request unchanged. -/
def ReservationViewSet.updateApi (today : Int) (r : Reservation)
    (ci co : Int) (st : String) : Reservation × Except String Reservation :=
  match ReservationSerializer.buildFields with
  | Except.error e => (r, Except.error e)
  | Except.ok _ =>
      match ReservationSerializer.validate today ci co with
      | Except.error e => (r, Except.error e)
      | Except.ok () =>
          let r2 := { r with check_in_date := ci, check_out_date := co, status := st }
          (r2, Except.ok r2)

/-- C3: check_in succeeds exactly from status confirmed, setting checked_in;
check_out succeeds exactly from checked_in, setting checked_out; from any
other status each endpoint answers 400 and leaves the reservation unchanged. -/
theorem C3_checkin_checkout_guards (r : Reservation) :
    (r.status = "confirmed" →
      ReservationViewSet.check_in r =
        ({ r with status := "checked_in" }, 200, "checked in")) ∧
    (r.status ≠ "confirmed" →
      ReservationViewSet.check_in r =
        (r, 400, "Reservation must be confirmed before check-in")) ∧
    (r.status = "checked_in" →
      ReservationViewSet.check_out r =
        ({ r with status := "checked_out" }, 200, "checked out")) ∧
    (r.status ≠ "checked_in" →
      ReservationViewSet.check_out r =
        (r, 400, "Reservation must be checked in before check-out")) := by
  refine ⟨fun h => ?_, fun h => ?_, fun h => ?_, fun h => ?_⟩ <;>
    simp [ReservationViewSet.check_in, ReservationViewSet.check_out, h]

/-- C3 witness: a pending reservation is refused check-in and left unchanged. -/
theorem C3_checkin_checkout_guards_witness :
    (⟨0, 1, "pending"⟩ : Reservation).status ≠ "confirmed" ∧
      ReservationViewSet.check_in ⟨0, 1, "pending"⟩ =
        (⟨0, 1, "pending"⟩, 400, "Reservation must be confirmed before check-in") :=
  ⟨by decide, (C3_checkin_checkout_guards ⟨0, 1, "pending"⟩).2.1 (by decide)⟩

/-- C4: through the public interface the status never moves backward along
pending, confirmed, checked_in, checked_out.  Update requests leave the stored
row untouched and creation requests create nothing — serializer field
construction fails on guest_name before any write — while check_in and
check_out either leave the status alone or take exactly the designated
forward step. -/
theorem C4_status_only_advances (today : Int) (r : Reservation)
    (ci co : Int) (st : String) :
    (ReservationViewSet.updateApi today r ci co st).1 = r ∧
    ReservationViewSet.createApi today ci co st =
      Except.error "Field name guest_name is not valid for model Reservation." ∧
    statusRank r.status ≤ statusRank (ReservationViewSet.check_in r).1.status ∧
    statusRank r.status ≤ statusRank (ReservationViewSet.check_out r).1.status ∧
    ((ReservationViewSet.check_in r).1.status = r.status ∨
      (r.status = "confirmed" ∧
        (ReservationViewSet.check_in r).1.status = "checked_in")) ∧
    ((ReservationViewSet.check_out r).1.status = r.status ∨
      (r.status = "checked_in" ∧
        (ReservationViewSet.check_out r).1.status = "checked_out")) := by
  refine ⟨rfl, rfl, ?_, ?_, ?_, ?_⟩
  · by_cases h : r.status = "confirmed" <;>
      simp [ReservationViewSet.check_in, h, statusRank]
  · by_cases h : r.status = "checked_in" <;>
      simp [ReservationViewSet.check_out, h, statusRank]
  · by_cases h : r.status = "confirmed"
    · exact Or.inr ⟨h, by simp [ReservationViewSet.check_in, h]⟩
    · exact Or.inl (by simp [ReservationViewSet.check_in, h])
  · by_cases h : r.status = "checked_in"
    · exact Or.inr ⟨h, by simp [ReservationViewSet.check_out, h]⟩
    · exact Or.inl (by simp [ReservationViewSet.check_out, h])

/-- C5: evaluation of the creation endpoint at the claimed input (check-in
today, check-out the same day).  Serializer field construction fails on
guest_name with a configuration error naming no date rule — the same outcome
as for any other input — while the dead `validate` method would have produced
exactly the rule-naming rejection the claim describes. -/
theorem C5_creation_dies_before_validation :
    ReservationViewSet.createApi 0 0 0 "pending" =
      Except.error "Field name guest_name is not valid for model Reservation." ∧
    ReservationSerializer.validate 0 0 0 =
      Except.error "Check-out date must be after check-in date." :=
  ⟨rfl, rfl⟩

/-- Payment row (models.py lines 158-174): amount in cents, payment method
(choices cash, mobile, card) and payment status (free CharField, default
pending). -/
structure Payment where
  amount : Int
  payment_method : String
  payment_status : String
  deriving Repr, DecidableEq

/-- Payment.mark_as_paid (models.py lines 183-186): a pending payment becomes
completed and is saved; any other status is left untouched. -/
def Payment.mark_as_paid (p : Payment) : Payment :=
  if p.payment_status = "pending" then { p with payment_status := "completed" }
  else p

/-- Field names available on the Payment model (models.py lines 158-174):
the implicit primary key plus the declared fields.  There is no user field. -/
def paymentModelFieldNames : List String :=
  ["id", "reservation", "amount", "payment_method", "payment_date",
    "mobile_transaction_reference", "payment_status"]

/-- Payment.objects.create(**validated_data): the model constructor raises
TypeError on any keyword that is not a model field; otherwise the row starts
from the given field values. -/
def Payment.objectsCreate (kwargKeys : List String) (amount : Int)
    (method status0 : String) : Except String Payment :=
  match kwargKeys.find? (fun k => !(paymentModelFieldNames.contains k)) with
  | some k =>
      Except.error ("Payment() got unexpected keyword arguments: " ++ k)
  | none =>
      Except.ok { amount := amount, payment_method := method, payment_status := status0 }

/-- PaymentSerializer.create (serializers.py lines 144-154) as executed with
the keyword set it actually receives: first Payment.objects.create on the
whole validated_data; only if that succeeds is the status overwritten from
the method — completed for cash or mobile, pending for anything else — and
saved. -/
def PaymentSerializer.createRun (kwargKeys : List String) (amount : Int)
    (method status0 : String) : Except String Payment :=
  match Payment.objectsCreate kwargKeys amount method status0 with
  | Except.error e => Except.error e
  | Except.ok p =>
      if p.payment_method = "cash" ∨ p.payment_method = "mobile" then
        Except.ok { p with payment_status := "completed" }
      else
        Except.ok { p with payment_status := "pending" }

/-- POST /api/payments/ (PaymentViewSet, views.py lines 147-154, the only
payment-creation path in the source): perform_create calls
serializer.save(user=request.user), so validated_data reaches create carrying
the writable serializer fields plus the extra key user. -/
def PaymentViewSet.createApi (amount : Int) (method status0 : String) :
    Except String Payment :=
  PaymentSerializer.createRun
    ["reservation", "amount", "payment_method", "payment_status", "user"]
    amount method status0

/-- C6: evaluation of the payment-creation endpoint on a cash payment.  The
user keyword injected by perform_create is not a Payment field, so
Payment.objects.create raises TypeError and no payment ever exists to take
the method-derived status; without that extra keyword the very same create
method would have returned a completed cash payment as the claim describes. -/
theorem C6_payment_creation_crashes :
    PaymentViewSet.createApi 1000 "cash" "pending" =
      Except.error "Payment() got unexpected keyword arguments: user" ∧
    PaymentSerializer.createRun
        ["reservation", "amount", "payment_method", "payment_status"]
        1000 "cash" "pending" =
      Except.ok ⟨1000, "cash", "completed"⟩ :=
  ⟨rfl, rfl⟩

/-- C9: mark_as_paid sends a pending payment to completed, leaves a completed
payment untouched, and applying it twice equals applying it once. -/
theorem C9_mark_as_paid_idempotent (p : Payment) :
    (p.payment_status = "pending" →
      Payment.mark_as_paid p = { p with payment_status := "completed" }) ∧
    (p.payment_status = "completed" → Payment.mark_as_paid p = p) ∧
    Payment.mark_as_paid (Payment.mark_as_paid p) = Payment.mark_as_paid p := by
  refine ⟨fun h => ?_, fun h => ?_, ?_⟩
  · simp [Payment.mark_as_paid, h]
  · simp [Payment.mark_as_paid, h]
  · by_cases h : p.payment_status = "pending" <;>
      simp [Payment.mark_as_paid, h]

/-- C9 witness: a pending payment of 10.00 by card becomes completed, and a
completed one is untouched. -/
theorem C9_mark_as_paid_idempotent_witness :
    ((⟨1000, "card", "pending"⟩ : Payment).payment_status = "pending" ∧
      Payment.mark_as_paid ⟨1000, "card", "pending"⟩ = ⟨1000, "card", "completed"⟩) ∧
    ((⟨1000, "card", "completed"⟩ : Payment).payment_status = "completed" ∧
      Payment.mark_as_paid ⟨1000, "card", "completed"⟩ = ⟨1000, "card", "completed"⟩) :=
  ⟨⟨rfl, (C9_mark_as_paid_idempotent ⟨1000, "card", "pending"⟩).1 rfl⟩,
    ⟨rfl, (C9_mark_as_paid_idempotent ⟨1000, "card", "completed"⟩).2.1 rfl⟩⟩

/-- First InventoryItemSerializer definition, field validator for quantity
(serializers.py lines 71-74).  This class is shadowed by the second definition
of the same name at lines 166-169, so this validator is dead code. -/
def InventoryItemSerializerFirst.validate_quantity (value : Int) : Except String Int :=
  if value < 0 then Except.error "Quantity cannot be negative."
  else Except.ok value

/-- First InventoryItemSerializer definition, field validator for price
(serializers.py lines 76-79), likewise shadowed and dead. -/
def InventoryItemSerializerFirst.validate_price (value : Int) : Except String Int :=
  if value < 0 then Except.error "Price cannot be negative."
  else Except.ok value

/-- Effective InventoryItemSerializer: the second class of that name
(serializers.py lines 166-169) shadows the first at import time, so the
serializer the viewsets use has `fields = __all__` and no custom validators.
Field-level validation is then only what the model fields impose: quantity is
a PositiveIntegerField (minimum 0), price a plain DecimalField with no lower
bound; `InventoryItem.clean` is never invoked by the serializer. -/
def InventoryItemSerializer.run (name : String) (quantity price : Int) :
    Except String InventoryItem :=
  if quantity < 0 then
    Except.error "Ensure this value is greater than or equal to 0."
  else Except.ok { name := name, quantity := quantity, price := price }

/-- C7: the inventory endpoint accepts and persists a negative price.  The
serializer in force (second definition, which shadows the one carrying
validate_price) admits price -5.00, even though the shadowed validator and
the model's own clean method would both reject it. -/
theorem C7_negative_price_accepted :
    InventoryItemSerializer.run "Soap" 1 (-500) =
      Except.ok ⟨"Soap", 1, -500⟩ ∧
    InventoryItemSerializerFirst.validate_price (-500) =
      Except.error "Price cannot be negative." ∧
    InventoryItem.clean ⟨"Soap", 1, -500⟩ =
      Except.error "Price cannot be negative." := by
  refine ⟨rfl, rfl, rfl⟩

/-- Permission policy a viewset declares through `permission_classes`.
`allowAny` is an explicit AllowAny list, `authOnly` an explicit
IsAuthenticated list, and `unspecified` means the class declares no
`permission_classes` at all and inherits whatever default the framework
settings provide. -/
inductive PermissionPolicy
  | allowAny
  | authOnly
  | unspecified
  deriving Repr, DecidableEq

/-- Whether a policy by itself rejects an unauthenticated caller; for an
unspecified policy the answer is not determined by the source under src. -/
def PermissionPolicy.rejectsAnonymous : PermissionPolicy → Option Bool
  | PermissionPolicy.allowAny => some false
  | PermissionPolicy.authOnly => some true
  | PermissionPolicy.unspecified => none

/-- Routing table of urls.py lines 9-16 with the `permission_classes` each
registered viewset declares: reservations, transactions and payments use
IsAuthenticated (views.py lines 64, 150, 165); users is api.UserViewSet with
AllowAny on the whole viewset (api.py line 91), covering every action;
inventory (views.py lines 193-195) and reports (views.py lines 198-254)
declare no permission classes.  Unregistered prefixes map to none. -/
def routePolicy (route : String) : Option PermissionPolicy :=
  if route = "reservations" then some PermissionPolicy.authOnly
  else if route = "inventory" then some PermissionPolicy.unspecified
  else if route = "transactions" then some PermissionPolicy.authOnly
  else if route = "users" then some PermissionPolicy.allowAny
  else if route = "reports" then some PermissionPolicy.unspecified
  else if route = "payments" then some PermissionPolicy.authOnly
  else none

/-- Actions exposed by the users route: the standard ModelViewSet CRUD actions
plus the extra sign_up and sign_in actions (api.py lines 88-116). -/
def userRouteActions : List String :=
  ["list", "retrieve", "create", "update", "partial_update", "destroy",
    "sign_up", "sign_in"]

/-- C8 counterexample: the users list action is neither sign_up nor sign_in,
yet the viewset serving it declares AllowAny, which does not reject an
anonymous caller — anonymous GET /api/users/ returns the user collection. -/
theorem C8_users_route_open_to_anonymous :
    "list" ∈ userRouteActions ∧ "list" ≠ "sign_up" ∧ "list" ≠ "sign_in" ∧
    routePolicy "users" = some PermissionPolicy.allowAny ∧
    PermissionPolicy.rejectsAnonymous PermissionPolicy.allowAny = some false := by
  refine ⟨?_, ?_, ?_, rfl, rfl⟩ <;> decide

/-- C8 amended: the reservations, transactions and payments routes reject
unauthenticated callers; the users route is open to anonymous callers for all
of its actions, sign_up and sign_in included; the inventory and reports
routes declare no permission policy, so their treatment of anonymous callers
is left to the framework default. -/
theorem C8_declared_permissions (route : String)
    (h : route = "reservations" ∨ route = "transactions" ∨ route = "payments") :
    (routePolicy route).bind PermissionPolicy.rejectsAnonymous = some true ∧
    routePolicy "users" = some PermissionPolicy.allowAny ∧
    PermissionPolicy.rejectsAnonymous PermissionPolicy.allowAny = some false ∧
    routePolicy "inventory" = some PermissionPolicy.unspecified ∧
    routePolicy "reports" = some PermissionPolicy.unspecified ∧
    PermissionPolicy.rejectsAnonymous PermissionPolicy.unspecified = none := by
  refine ⟨?_, rfl, rfl, rfl, rfl, rfl⟩
  rcases h with h | h | h <;> subst h <;> rfl

/-- C8 amended witness: at the reservations route. -/
theorem C8_declared_permissions_witness :
    ("reservations" = "reservations" ∨ "reservations" = "transactions" ∨
      "reservations" = "payments") ∧
    ((routePolicy "reservations").bind PermissionPolicy.rejectsAnonymous = some true ∧
      routePolicy "users" = some PermissionPolicy.allowAny ∧
      PermissionPolicy.rejectsAnonymous PermissionPolicy.allowAny = some false ∧
      routePolicy "inventory" = some PermissionPolicy.unspecified ∧
      routePolicy "reports" = some PermissionPolicy.unspecified ∧
      PermissionPolicy.rejectsAnonymous PermissionPolicy.unspecified = none) :=
  ⟨Or.inl rfl, C8_declared_permissions "reservations" (Or.inl rfl)⟩

/-- Role choices declared on CustomUser.role (models.py lines 10-14). -/
def roleChoices : List String := ["admin", "manager", "staff"]

/-- IsGuest.has_permission (permissions.py lines 13-15): compares the user
role to the string guest. -/
def IsGuest.has_permission (role : String) : Bool := role = "guest"

/-- C10: for every user whose role is one of the declared choices admin,
manager or staff, the IsGuest permission predicate returns false, since none
of the choices is the string guest it compares against. -/
theorem C10_is_guest_never_grants (role : String) (h : role ∈ roleChoices) :
    IsGuest.has_permission role = false := by
  simp only [roleChoices, List.mem_cons, List.mem_singleton, List.not_mem_nil,
    or_false] at h
  rcases h with h | h | h <;> subst h <;> rfl

/-- C10 witness: the admin role. -/
theorem C10_is_guest_never_grants_witness :
    "admin" ∈ roleChoices ∧ IsGuest.has_permission "admin" = false :=
  ⟨by decide, C10_is_guest_never_grants "admin" (by decide)⟩
